import Mathlib

set_option maxHeartbeats 1000000

/-!
Shallow embedding of the core of `src/main.py` (the shad-butler chat bot):
the footer-parsing grammar, the DynamoDB (de)serialization of `Post`
records, the synchronizer handlers for created/edited chat messages, the
future-event selector, and the forward/self-healing path.

Conventions of the embedding:
* Python exceptions are modelled with `Except PyError`; a function that can
  raise returns `Except`.  An exception raised before any store write leaves
  the store argument untouched, matching the Python control flow.
* The durable key-value store is modelled as a `List Post`; `put_post` is
  insert-or-replace keyed on `message_id` and `delete_post` is
  delete-by-key, the contract of `dynamo_put` / `dynamo_delete`.
* The regex patterns `EVENT_POST_FOOTER_PATTERN` and
  `NAV_POST_FOOTER_PATTERN` are compiled to explicit leftmost-match
  scanners over `List Char`.  The character classes are the ASCII fragments
  of Python's unicode-aware ones, which is what every footer in the chat
  grammar uses.
* `list.sort(key=...)` (Timsort, stable) is modelled by a stable insertion
  sort; for a total preorder key the stable sort result is unique, so the
  two agree extensionally.
-/

inductive PyError
  | valueError
  | typeError
  | keyError
deriving DecidableEq, Repr

/-! ## Post type constants (src/main.py lines 78-83) -/

def CONTACTS : String := "contacts"
def CHATS : String := "chats"
def EVENT : String := "event"
def EVENTS_ARCHIVE : String := "events_archive"
def LECTURES_ARCHIVE : String := "lectures_archive"
def WHOIS_HOWTO : String := "whois_howto"

/-! ## Calendar dates (model of Python `datetime.date`) -/

structure Date where
  year : Nat
  month : Nat
  day : Nat
deriving DecidableEq, Repr

def leap_year (y : Nat) : Bool :=
  y % 4 == 0 && (y % 100 != 0 || y % 400 == 0)

def days_in_month (y m : Nat) : Nat :=
  if m == 2 then (if leap_year y then 29 else 28)
  else if m == 4 || m == 6 || m == 9 || m == 11 then 30
  else 31

/-- Invariant of a Python `date` object: MINYEAR..MAXYEAR, valid month and
day of month. -/
def Date.valid (d : Date) : Bool :=
  1 ≤ d.year && d.year ≤ 9999
    && 1 ≤ d.month && d.month ≤ 12
    && 1 ≤ d.day && d.day ≤ days_in_month d.year d.month

/-- Python date comparison: lexicographic on (year, month, day). -/
def Date.le (a b : Date) : Bool :=
  a.year < b.year
    || (a.year == b.year
        && (a.month < b.month || (a.month == b.month && a.day ≤ b.day)))

def digit_char (n : Nat) : Char :=
  if n == 0 then '0'
  else if n == 1 then '1'
  else if n == 2 then '2'
  else if n == 3 then '3'
  else if n == 4 then '4'
  else if n == 5 then '5'
  else if n == 6 then '6'
  else if n == 7 then '7'
  else if n == 8 then '8'
  else '9'

def char_digit_val (c : Char) : Option Nat :=
  if '0' ≤ c && c ≤ '9' then some (c.toNat - 48) else none

/-- Python `date.isoformat()`: zero-padded `YYYY-MM-DD` (valid dates have
year ≤ 9999, month ≤ 12, day ≤ 31). -/
def Date.isoformat (d : Date) : String :=
  String.mk
    [digit_char (d.year / 1000 % 10), digit_char (d.year / 100 % 10),
     digit_char (d.year / 10 % 10), digit_char (d.year % 10), '-',
     digit_char (d.month / 10 % 10), digit_char (d.month % 10), '-',
     digit_char (d.day / 10 % 10), digit_char (d.day % 10)]

/-- Python `date.fromisoformat`: exactly `YYYY-MM-DD`, all digits, and the
calendar validity check of the `date` constructor.  `none` models the
raised `ValueError`. -/
def Date.fromisoformat (s : String) : Option Date :=
  match s.data with
  | [y1, y2, y3, y4, da1, m1, m2, da2, d1, d2] =>
    if da1 = '-' && da2 = '-' then
      match char_digit_val y1, char_digit_val y2, char_digit_val y3,
            char_digit_val y4, char_digit_val m1, char_digit_val m2,
            char_digit_val d1, char_digit_val d2 with
      | some a, some b, some c, some d, some e, some f, some g, some h =>
        let dt : Date := ⟨a * 1000 + b * 100 + c * 10 + d, e * 10 + f, g * 10 + h⟩
        if dt.valid then some dt else none
      | _, _, _, _, _, _, _, _ => none
    else none
  | _ => none

/-! ## Python `str` / `int` on integers (used by the Dynamo layer) -/

def nat_to_chars (n : Nat) : List Char :=
  if h : n < 10 then [digit_char n]
  else nat_to_chars (n / 10) ++ [digit_char (n % 10)]
decreasing_by exact Nat.div_lt_self (Nat.lt_of_lt_of_le (by decide) (Nat.le_of_not_lt h)) (by decide)

def nat_to_string (n : Nat) : String := String.mk (nat_to_chars n)

/-- Python `str` on an int. -/
def int_to_string (m : Int) : String :=
  if m < 0 then "-" ++ nat_to_string m.natAbs else nat_to_string m.toNat

def digits_fold (l : List Char) : Option Nat :=
  l.foldl
    (fun acc c =>
      match acc, char_digit_val c with
      | some a, some d => some (a * 10 + d)
      | _, _ => none)
    (some 0)

def string_to_nat (l : List Char) : Option Nat :=
  if l.isEmpty then none else digits_fold l

/-- Python `int` on a decimal string (the fragment used here: optional
minus sign, then decimal digits). -/
def string_to_int (s : String) : Option Int :=
  match s.data with
  | '-' :: rest => (string_to_nat rest).map (fun n => -(Int.ofNat n))
  | l => (string_to_nat l).map Int.ofNat

/-! ## Data model (src/main.py lines 86-104, 116-119) -/

structure Post where
  message_id : Int
  type : String
  event_date : Option Date
deriving DecidableEq, Repr

structure PostFooter where
  type : String
  event_date : Option Date
deriving DecidableEq, Repr

/-- Python truthiness of the optional `message_id` keyword argument. -/
def truthy_int : Option Int → Bool
  | none => false
  | some m => m != 0

/-- Python truthiness of the optional `type` keyword argument. -/
def truthy_str : Option String → Bool
  | none => false
  | some s => s != ""

/-- `find_posts` (lines 93-99): `message_id and post.message_id ==
message_id or type and post.type == type`, with Python truthiness of the
two optional arguments. -/
def find_posts (posts : List Post) (message_id : Option Int)
    (type : Option String) : List Post :=
  posts.filter fun post =>
    (truthy_int message_id && post.message_id == message_id.getD 0)
      || (truthy_str type && post.type == type.getD "")

/-- `find_post` (lines 102-104): first generated element, if any. -/
def find_post (posts : List Post) (message_id : Option Int)
    (type : Option String) : Option Post :=
  (find_posts posts message_id type).head?

/-! ## Footer grammar (src/main.py lines 122-146)

`EVENT_POST_FOOTER_PATTERN` is `\#event\s+(\d\d\d\d-\d\d-\d\d)` and
`NAV_POST_FOOTER_PATTERN` is
`\#(chats|contacts|events_archive|lectures_archive|whois_howto)`, both used
with `re.search` (leftmost match).  They are modelled as scanners that try
a match at every suffix, leftmost first.  Since `\s` and `\d` are disjoint
character classes, the greedy `\s+` never backtracks usefully: the date
group can only start at the first non-space character. -/

def is_digit (c : Char) : Bool := '0' ≤ c && c ≤ '9'

def is_space (c : Char) : Bool :=
  c = ' ' || c = '\t' || c = '\n' || c = '\r' || c = '\x0b' || c = '\x0c'

/-- Match a literal character sequence, returning the rest of the input. -/
def match_lit : List Char → List Char → Option (List Char)
  | [], input => some input
  | _ :: _, [] => none
  | p :: ps, c :: cs => if c = p then match_lit ps cs else none

/-- The capture group `(\d\d\d\d-\d\d-\d\d)` at the current position. -/
def match_date_shape : List Char → Option String
  | a :: b :: c :: d :: '-' :: e :: f :: '-' :: g :: h :: _ =>
    if is_digit a && is_digit b && is_digit c && is_digit d
        && is_digit e && is_digit f && is_digit g && is_digit h then
      some (String.mk [a, b, c, d, '-', e, f, '-', g, h])
    else none
  | _ => none

def skip_spaces : List Char → List Char
  | [] => []
  | c :: cs => if is_space c then skip_spaces cs else c :: cs

/-- `\#event\s+(\d\d\d\d-\d\d-\d\d)` anchored at the current position;
returns the captured date substring. -/
def event_match_at (input : List Char) : Option String :=
  match match_lit "#event".data input with
  | none => none
  | some rest =>
    match rest with
    | [] => none
    | c :: cs => if is_space c then match_date_shape (skip_spaces cs) else none

def search_event : List Char → Option String
  | [] => none
  | c :: cs =>
    match event_match_at (c :: cs) with
    | some r => some r
    | none => search_event cs

/-- `\#(chats|contacts|events_archive|lectures_archive|whois_howto)`
anchored at the current position; returns the captured category, first
alternative wins. -/
def nav_match_at (input : List Char) : Option String :=
  match input with
  | '#' :: rest =>
    if (match_lit CHATS.data rest).isSome then some CHATS
    else if (match_lit CONTACTS.data rest).isSome then some CONTACTS
    else if (match_lit EVENTS_ARCHIVE.data rest).isSome then some EVENTS_ARCHIVE
    else if (match_lit LECTURES_ARCHIVE.data rest).isSome then some LECTURES_ARCHIVE
    else if (match_lit WHOIS_HOWTO.data rest).isSome then some WHOIS_HOWTO
    else none
  | _ => none

def search_nav : List Char → Option String
  | [] => none
  | c :: cs =>
    match nav_match_at (c :: cs) with
    | some r => some r
    | none => search_nav cs

/-- `parse_post_footer` (lines 136-146).  `Date.fromisoformat` failing is
the raised `ValueError`, which propagates out of the function. -/
def parse_post_footer (text : String) : Except PyError (Option PostFooter) :=
  match search_event text.data with
  | some ds =>
    match Date.fromisoformat ds with
    | some d => .ok (some ⟨EVENT, some d⟩)
    | none => .error .valueError
  | none =>
    match search_nav text.data with
    | some ty => .ok (some ⟨ty, none⟩)
    | none => .ok none

/-! ## Store operations

The durable store (DynamoDB `posts` table, keyed on `message_id`) is a
`List Post`.  `put_post` is `dynamo_put` of the formatted post:
insert-or-replace by key.  `delete_post` is `dynamo_delete` by key. -/

def put_post (store : List Post) (post : Post) : List Post :=
  if store.any (fun p => p.message_id == post.message_id) then
    store.map (fun p => if p.message_id == post.message_id then post else p)
  else store ++ [post]

def delete_post (store : List Post) (message_id : Int) : List Post :=
  store.filter (fun p => p.message_id != message_id)

/-! ## Synchronizer (src/main.py lines 495-520) -/

/-- `new_post` (lines 495-500): build a `Post` from the message id and the
footer, insert-or-replace it. -/
def new_post (store : List Post) (message_id : Int)
    (footer : PostFooter) : List Post :=
  put_post store ⟨message_id, footer.type, footer.event_date⟩

/-- `handle_chat_new_message` (lines 503-506). -/
def handle_chat_new_message (store : List Post) (message_id : Int)
    (text : String) : Except PyError (List Post) :=
  match parse_post_footer text with
  | .error e => .error e
  | .ok (some footer) => .ok (new_post store message_id footer)
  | .ok none => .ok store

/-- `handle_chat_edited_message` (lines 509-520). -/
def handle_chat_edited_message (store : List Post) (message_id : Int)
    (text : String) : Except PyError (List Post) :=
  match parse_post_footer text with
  | .error e => .error e
  | .ok (some footer) => .ok (new_post store message_id footer)
  | .ok none =>
    match find_post store (some message_id) none with
    | some post => .ok (delete_post store post.message_id)
    | none => .ok store

/-! ## Selector (src/main.py lines 428-446) -/

/-- Stable insertion of `x` after every element `y` with `le y x`. -/
def insert_by (le : α → α → Bool) (x : α) : List α → List α
  | [] => [x]
  | y :: ys => if le y x then y :: insert_by le x ys else x :: y :: ys

/-- Stable sort (model of Python `list.sort`): elements inserted
left-to-right, each landing after earlier equal elements. -/
def sort_by (le : α → α → Bool) (l : List α) : List α :=
  l.foldl (fun acc x => insert_by le x acc) []

def date_key (p : Post) : Date := p.event_date.getD ⟨0, 0, 0⟩

/-- `select_future` (lines 428-435) with `today` passed explicitly for
purity.  The comprehension `_.event_date >= today` raises `TypeError` as
soon as a post without a date is reached, so the call succeeds exactly
when every input post carries a date. -/
def select_future (posts : List Post) (today : Date) (cap : Nat) :
    Except PyError (List Post) :=
  if posts.all (fun p => p.event_date.isSome) then
    .ok ((sort_by (fun a b => (date_key a).le (date_key b))
      (posts.filter fun p =>
        match p.event_date with
        | some d => Date.le today d
        | none => false)).take cap)
  else .error .typeError

/-- The selection pipeline of `handle_future_events_command` (lines
438-446): restrict the scanned posts to type `event` with `find_posts`,
then `select_future`. -/
def select_future_events (posts : List Post) (today : Date) (cap : Nat) :
    Except PyError (List Post) :=
  select_future (find_posts posts none (some EVENT)) today cap

/-- Stated from the spec's words, for comparison with the code-derived
`select_future_events`: filter posts of type `event` whose `event_date` is
on or after the current date, sort ascending by `event_date`, return at
most `cap` entries. -/
def spec_select_future_events (posts : List Post) (today : Date)
    (cap : Nat) : List Post :=
  (sort_by (fun a b => (date_key a).le (date_key b))
    (posts.filter fun p =>
      p.type == EVENT &&
        (match p.event_date with
         | some d => Date.le today d
         | none => false))).take cap

/-! ## Dynamo (de)serialization (src/main.py lines 232-256) -/

inductive AttrValue
  | S (s : String)
  | N (s : String)
deriving DecidableEq, Repr

/-- `dynamo_format_post` (lines 243-256): `if post.event_date:` is date
truthiness, i.e. presence. -/
def dynamo_format_post (post : Post) : List (String × AttrValue) :=
  [("type", AttrValue.S post.type),
   ("message_id", AttrValue.N (int_to_string post.message_id))]
    ++ (match post.event_date with
        | some d => [("event_date", AttrValue.S d.isoformat)]
        | none => [])

def attr_s : Option AttrValue → Except PyError String
  | some (AttrValue.S s) => .ok s
  | _ => .error .keyError

def attr_n : Option AttrValue → Except PyError String
  | some (AttrValue.N s) => .ok s
  | _ => .error .keyError

/-- `dynamo_parse_post` (lines 232-240): `int(item['message_id']['N'])`,
`item['type']['S']`, and `Date.fromisoformat(item['event_date']['S'])`
when the field is present.  Missing keys raise `KeyError`, bad numerals
and bad dates raise `ValueError`. -/
def dynamo_parse_post (item : List (String × AttrValue)) :
    Except PyError Post := do
  let midStr ← attr_n (item.lookup "message_id")
  let message_id ←
    match string_to_int midStr with
    | some m => Except.ok m
    | none => Except.error PyError.valueError
  let ty ← attr_s (item.lookup "type")
  let event_date ←
    match item.lookup "event_date" with
    | none => Except.ok none
    | some (AttrValue.S s) =>
      match Date.fromisoformat s with
      | some d => Except.ok (some d)
      | none => Except.error PyError.valueError
    | some (AttrValue.N _) => Except.error PyError.keyError
  Except.ok ⟨message_id, ty, event_date⟩

/-! ## Forward path (src/main.py lines 389-420) -/

/-- `message_url` (lines 389-394). -/
def message_url (chat_id : Int) (message_id : Int) : String :=
  "https://t.me/c/" ++ int_to_string (-1000000000000 - chat_id)
    ++ "/" ++ int_to_string message_id

/-- `MISSING_FORWARD_TEXT.format(url=url)` (lines 357-360). -/
def missing_forward_text (url : String) : String :=
  "Хотел переслать пост " ++ url ++ ", но он исчез. Удалил из своей базы."

/-- Outcome of the external `bot.forward_message` call, an input to the
embedding of `forward_post`. -/
inductive ForwardError
  | messageToForwardNotFound
  | messageIdInvalid
  | other (code : Nat)
deriving DecidableEq, Repr

inductive ForwardOutcome
  | forwarded
  | answered (text : String)
deriving DecidableEq, Repr

/-- `forward_post` (lines 397-420), with the transport call's behaviour
passed in as `result` (`none` = success).  Returns the store after the
call together with the outcome; an unhandled exception is `.error` with
the store unchanged, since the handler writes nothing before re-raising. -/
def forward_post (chat_id : Int) (result : Option ForwardError)
    (store : List Post) (post : Post) :
    List Post × Except Nat ForwardOutcome :=
  match result with
  | none => (store, .ok .forwarded)
  | some .messageToForwardNotFound =>
    (delete_post store post.message_id,
     .ok (.answered (missing_forward_text (message_url chat_id post.message_id))))
  | some .messageIdInvalid =>
    (delete_post store post.message_id,
     .ok (.answered (missing_forward_text (message_url chat_id post.message_id))))
  | some (.other code) => (store, .error code)

/-! ## Helper lemmas: decimal printing and parsing round-trips -/

theorem char_digit_val_digit_char (n : Nat) (h : n < 10) :
    char_digit_val (digit_char n) = some n := by
  interval_cases n <;> rfl

theorem digit_char_ne_dash (n : Nat) : digit_char n ≠ '-' := by
  unfold digit_char
  split_ifs <;> decide

theorem nat_to_chars_ne_nil (n : Nat) : nat_to_chars n ≠ [] := by
  rw [nat_to_chars]
  split <;> simp

theorem nat_to_chars_no_dash (n : Nat) : ∀ c ∈ nat_to_chars n, c ≠ '-' := by
  induction n using Nat.strong_induction_on with
  | _ n ih =>
    intro c hc
    rw [nat_to_chars] at hc
    split at hc
    · simp at hc
      exact hc ▸ digit_char_ne_dash n
    · rw [List.mem_append] at hc
      rcases hc with hc | hc
      · exact ih (n / 10) (Nat.div_lt_self (by omega) (by omega)) c hc
      · simp at hc
        exact hc ▸ digit_char_ne_dash (n % 10)

theorem nat_to_chars_foldl (n : Nat) : ∀ a : Nat,
    (nat_to_chars n).foldl
      (fun acc c =>
        match acc, char_digit_val c with
        | some a, some d => some (a * 10 + d)
        | _, _ => none)
      (some a) = some (a * 10 ^ (nat_to_chars n).length + n) := by
  induction n using Nat.strong_induction_on with
  | _ n ih =>
    intro a
    rw [nat_to_chars]
    split
    · rename_i h
      simp [List.foldl, char_digit_val_digit_char n h]
    · rename_i h
      rw [List.foldl_append]
      rw [ih (n / 10) (Nat.div_lt_self (by omega) (by omega)) a]
      have hmod : n % 10 < 10 := Nat.mod_lt n (by omega)
      simp only [List.foldl, char_digit_val_digit_char (n % 10) hmod,
        List.length_append, List.length_cons, List.length_nil]
      have h2 : 10 * (n / 10) + n % 10 = n := Nat.div_add_mod n 10
      congr 1
      calc (a * 10 ^ (nat_to_chars (n / 10)).length + n / 10) * 10 + n % 10
          = a * (10 ^ (nat_to_chars (n / 10)).length * 10)
              + (10 * (n / 10) + n % 10) := by ring
        _ = a * 10 ^ ((nat_to_chars (n / 10)).length + 0 + 1) + n := by
            rw [h2, pow_succ]

theorem string_to_nat_nat_to_chars (n : Nat) :
    string_to_nat (nat_to_chars n) = some n := by
  unfold string_to_nat
  rw [if_neg (by simp [List.isEmpty_iff, nat_to_chars_ne_nil n])]
  unfold digits_fold
  rw [nat_to_chars_foldl n 0]
  simp

theorem string_to_int_int_to_string (m : Int) :
    string_to_int (int_to_string m) = some m := by
  unfold int_to_string
  split_ifs with hm
  · -- negative: "-" ++ digits of |m|
    unfold string_to_int
    have hdata : ("-" ++ nat_to_string m.natAbs).data
        = '-' :: nat_to_chars m.natAbs := rfl
    rw [hdata]
    split
    · rename_i rest heq
      injection heq with _ hrest
      rw [← hrest, string_to_nat_nat_to_chars m.natAbs]
      show some (-(Int.ofNat m.natAbs)) = some m
      exact congrArg some (by simp only [Int.ofNat_eq_coe]; omega)
    · rename_i hne
      exact absurd rfl (hne (nat_to_chars m.natAbs))
  · -- nonnegative: plain digits of toNat
    unfold string_to_int
    have hdata : (nat_to_string m.toNat).data = nat_to_chars m.toNat := rfl
    rw [hdata]
    split
    · rename_i rest heq
      exact absurd (heq ▸ List.mem_cons_self '-' rest)
        (fun hc => nat_to_chars_no_dash m.toNat '-' hc rfl)
    · rw [string_to_nat_nat_to_chars m.toNat]
      show some (Int.ofNat m.toNat) = some m
      exact congrArg some (by simp only [Int.ofNat_eq_coe]; omega)

/-! ## Helper lemmas: ISO date round-trip -/

theorem days_in_month_le (y m : Nat) : days_in_month y m ≤ 31 := by
  unfold days_in_month
  split_ifs <;> omega

theorem date_valid_bounds (d : Date) (h : d.valid = true) :
    1 ≤ d.year ∧ d.year ≤ 9999 ∧ 1 ≤ d.month ∧ d.month ≤ 12
      ∧ 1 ≤ d.day ∧ d.day ≤ 31 := by
  unfold Date.valid at h
  simp only [Bool.and_eq_true, decide_eq_true_eq] at h
  have := days_in_month_le d.year d.month
  omega

theorem fromisoformat_isoformat (d : Date) (h : d.valid = true) :
    Date.fromisoformat d.isoformat = some d := by
  obtain ⟨hy1, hy2, hm1, hm2, hd1, hd2⟩ := date_valid_bounds d h
  have e1 : char_digit_val (digit_char (d.year / 1000 % 10))
      = some (d.year / 1000 % 10) := char_digit_val_digit_char _ (by omega)
  have e2 : char_digit_val (digit_char (d.year / 100 % 10))
      = some (d.year / 100 % 10) := char_digit_val_digit_char _ (by omega)
  have e3 : char_digit_val (digit_char (d.year / 10 % 10))
      = some (d.year / 10 % 10) := char_digit_val_digit_char _ (by omega)
  have e4 : char_digit_val (digit_char (d.year % 10))
      = some (d.year % 10) := char_digit_val_digit_char _ (by omega)
  have e5 : char_digit_val (digit_char (d.month / 10 % 10))
      = some (d.month / 10 % 10) := char_digit_val_digit_char _ (by omega)
  have e6 : char_digit_val (digit_char (d.month % 10))
      = some (d.month % 10) := char_digit_val_digit_char _ (by omega)
  have e7 : char_digit_val (digit_char (d.day / 10 % 10))
      = some (d.day / 10 % 10) := char_digit_val_digit_char _ (by omega)
  have e8 : char_digit_val (digit_char (d.day % 10))
      = some (d.day % 10) := char_digit_val_digit_char _ (by omega)
  unfold Date.isoformat
  simp only [Date.fromisoformat, e1, e2, e3, e4, e5, e6, e7, e8]
  have hY : d.year / 1000 % 10 * 1000 + d.year / 100 % 10 * 100
      + d.year / 10 % 10 * 10 + d.year % 10 = d.year := by omega
  have hM : d.month / 10 % 10 * 10 + d.month % 10 = d.month := by omega
  have hD : d.day / 10 % 10 * 10 + d.day % 10 = d.day := by omega
  simp only [hY, hM, hD]
  simp [h]


/-! ## Helper lemmas: store operations and searches -/

theorem put_post_idem (store : List Post) (post : Post) :
    put_post (put_post store post) post = put_post store post := by
  by_cases h1 : (store.any fun p => p.message_id == post.message_id) = true
  · have e1 : put_post store post
        = store.map fun p =>
            if p.message_id == post.message_id then post else p := by
      unfold put_post
      rw [if_pos h1]
    rw [e1]
    unfold put_post
    have hany : ((store.map fun p =>
        if p.message_id == post.message_id then post else p).any
          fun p => p.message_id == post.message_id) = true := by
      rw [List.any_map]
      rw [List.any_eq_true] at h1 ⊢
      obtain ⟨p, hp, hpe⟩ := h1
      exact ⟨p, hp, by simp [Function.comp, hpe]⟩
    rw [if_pos hany, List.map_map]
    have hff : ((fun p => if p.message_id == post.message_id then post else p)
        ∘ fun p => if p.message_id == post.message_id then post else p)
          = fun p => if p.message_id == post.message_id then post else p := by
      funext p
      by_cases hc : (p.message_id == post.message_id) = true
      · simp [Function.comp, hc]
      · simp [Function.comp, hc]
    rw [hff]
  · have e1 : put_post store post = store ++ [post] := by
      unfold put_post
      rw [if_neg h1]
    rw [e1]
    unfold put_post
    have hany2 : ((store ++ [post]).any
        fun p => p.message_id == post.message_id) = true := by simp
    rw [if_pos hany2, List.map_append]
    have h0 : (store.map fun p =>
        if p.message_id == post.message_id then post else p) = store := by
      conv_rhs => rw [← List.map_id store]
      apply List.map_congr_left
      intro p hp
      have hne : ¬ (p.message_id == post.message_id) = true := by
        intro hc
        exact h1 (List.any_eq_true.mpr ⟨p, hp, hc⟩)
      simp [hne]
    rw [h0]
    simp

theorem mem_put_post {store : List Post} {q p : Post}
    (h : p ∈ put_post store q) : p = q ∨ p ∈ store := by
  unfold put_post at h
  split_ifs at h
  · obtain ⟨r, hr, hrq⟩ := List.mem_map.mp h
    by_cases hc : (r.message_id == q.message_id) = true
    · left
      rw [← hrq]
      simp [hc]
    · right
      rw [← hrq]
      simp only [if_neg hc]
      exact hr
  · rcases List.mem_append.mp h with h | h
    · right
      exact h
    · left
      simpa using h

theorem mem_delete_post {store : List Post} {k : Int} {p : Post}
    (h : p ∈ delete_post store k) : p ∈ store :=
  List.mem_of_mem_filter h

theorem find_post_delete (store : List Post) (k : Int) :
    find_post (delete_post store k) (some k) none = none := by
  unfold find_post
  have hnil : find_posts (delete_post store k) (some k) none = [] := by
    unfold find_posts delete_post
    rw [List.filter_filter]
    rw [List.filter_eq_nil_iff]
    intro p hp
    simp [truthy_int, truthy_str]
  rw [hnil]
  rfl

theorem find_post_found {store : List Post} {k : Int} {p : Post}
    (h : find_post store (some k) none = some p) :
    p ∈ store ∧ p.message_id = k ∧ k ≠ 0 := by
  unfold find_post at h
  cases hl : find_posts store (some k) none with
  | nil =>
    rw [hl] at h
    cases h
  | cons a t =>
    rw [hl] at h
    have ha : a = p := by simpa using h
    have hmem : p ∈ find_posts store (some k) none := by
      rw [hl]
      exact ha ▸ List.mem_cons_self a t
    unfold find_posts at hmem
    obtain ⟨hps, hcond⟩ := List.mem_filter.mp hmem
    simp only [truthy_int, truthy_str, Option.getD, Bool.and_eq_true,
      Bool.or_eq_true, Bool.false_and, Bool.or_false, bne_iff_ne,
      beq_iff_eq, ne_eq] at hcond
    exact ⟨hps, hcond.2, hcond.1⟩

theorem nav_match_at_cases (l : List Char) (ty : String)
    (h : nav_match_at l = some ty) :
    ty = CHATS ∨ ty = CONTACTS ∨ ty = EVENTS_ARCHIVE
      ∨ ty = LECTURES_ARCHIVE ∨ ty = WHOIS_HOWTO := by
  unfold nav_match_at at h
  split at h
  · split_ifs at h <;> simp_all
  · cases h

theorem search_nav_cases (l : List Char) (ty : String)
    (h : search_nav l = some ty) :
    ty = CHATS ∨ ty = CONTACTS ∨ ty = EVENTS_ARCHIVE
      ∨ ty = LECTURES_ARCHIVE ∨ ty = WHOIS_HOWTO := by
  induction l with
  | nil => simp [search_nav] at h
  | cons c cs ih =>
    cases hn : nav_match_at (c :: cs) with
    | some r =>
      simp only [search_nav, hn] at h
      cases h
      exact nav_match_at_cases _ _ hn
    | none =>
      simp only [search_nav, hn] at h
      exact ih h

theorem find_posts_type_event (posts : List Post) :
    find_posts posts none (some EVENT)
      = posts.filter fun p => p.type == EVENT := by
  unfold find_posts
  apply List.filter_congr
  intro p _
  simp [truthy_int, truthy_str, EVENT]

/-! ## Claim theorems -/

/-- C1 counterexample: the text `#event 2030-13-01 #contacts` contains the
event tag with a date-shaped but calendar-invalid date (month 13) and also
a navigation tag (`#contacts`, as the first conjunct shows the navigation
pattern would match), yet `parse_post_footer` does not return the
navigation footer: the `ValueError` raised by `Date.fromisoformat`
propagates, so the navigation pattern is never attempted. -/
theorem c1_counterexample :
    search_nav ("#event 2030-13-01 #contacts").data = some CONTACTS ∧
    parse_post_footer "#event 2030-13-01 #contacts"
      = .error PyError.valueError :=
  ⟨rfl, rfl⟩

/-- C1 (amended): whenever the leftmost match of the event pattern carries
a date-shaped but calendar-invalid date string, `parse_post_footer` raises
`ValueError`; it produces no event footer, but it also never falls through
to the navigation pattern. -/
theorem c1_invalid_event_date_raises (text : String) (ds : String)
    (h1 : search_event text.data = some ds)
    (h2 : Date.fromisoformat ds = none) :
    parse_post_footer text = .error PyError.valueError := by
  unfold parse_post_footer
  simp only [h1, h2]

/-- C1 witness: the amended theorem applied at a concrete input. -/
theorem c1_witness :
    parse_post_footer "#event 2030-13-01 #contacts"
      = .error PyError.valueError :=
  c1_invalid_event_date_raises "#event 2030-13-01 #contacts" "2030-13-01"
    rfl rfl

/-- C2: the synchronizer scenario.  Message 42 created with text
`#event 2030-05-01` puts `Post(42, event, 2030-05-01)` into the (initially
empty) store; the same message edited to plain untagged text deletes the
record; re-edited to `#contacts` the store holds `Post(42, contacts,
none)`. -/
theorem c2_sync_state_machine :
    handle_chat_new_message [] 42 "#event 2030-05-01"
        = .ok [⟨42, EVENT, some ⟨2030, 5, 1⟩⟩] ∧
    handle_chat_edited_message [⟨42, EVENT, some ⟨2030, 5, 1⟩⟩] 42
        "just some plain text" = .ok [] ∧
    handle_chat_edited_message [] 42 "#contacts"
        = .ok [⟨42, CONTACTS, none⟩] :=
  ⟨rfl, rfl, rfl⟩

/-- C4: handling "message edited" is idempotent.  For every message id,
text and starting store, if the handler completes with stored state `s`,
re-applying it with the same text on `s` yields `s` again.  A raising
text touches the store not at all, so only the completing case is at
issue. -/
theorem c4_edited_message_idempotent (store : List Post) (message_id : Int)
    (text : String) (s : List Post)
    (h : handle_chat_edited_message store message_id text = .ok s) :
    handle_chat_edited_message s message_id text = .ok s := by
  unfold handle_chat_edited_message at h ⊢
  cases hp : parse_post_footer text with
  | error e =>
    rw [hp] at h
    cases h
  | ok o =>
    cases o with
    | some footer =>
      simp only [hp] at h ⊢
      injection h with h'
      subst h'
      unfold new_post
      rw [put_post_idem]
    | none =>
      simp only [hp] at h ⊢
      cases hf : find_post store (some message_id) none with
      | some post =>
        rw [hf] at h
        injection h with h'
        subst h'
        obtain ⟨_, hpk, _⟩ := find_post_found hf
        rw [hpk]
        rw [find_post_delete store message_id]
      | none =>
        rw [hf] at h
        injection h with h'
        subst h'
        rw [hf]

/-- C4 witness: the idempotence theorem applied at a concrete input. -/
theorem c4_witness :
    handle_chat_edited_message [⟨42, CONTACTS, none⟩] 42 "#contacts"
      = .ok [⟨42, CONTACTS, none⟩] :=
  c4_edited_message_idempotent [] 42 "#contacts" [⟨42, CONTACTS, none⟩] rfl

/-- C3: the future-event selection pipeline refines the spec's description.
Under the precondition that every event post of the snapshot carries a
date (which C9 guarantees for synchronizer-written stores), the pipeline
returns exactly the event posts with `event_date` on or after the current
date, sorted ascending by `event_date` (stably), truncated to `cap`. -/
theorem c3_select_future_events_spec (posts : List Post) (today : Date)
    (cap : Nat)
    (h : ∀ p ∈ posts, p.type = EVENT → p.event_date.isSome = true) :
    select_future_events posts today cap
      = .ok (spec_select_future_events posts today cap) := by
  unfold select_future_events select_future spec_select_future_events
  rw [find_posts_type_event]
  have hall : ((posts.filter fun p => p.type == EVENT).all
      fun p => p.event_date.isSome) = true := by
    rw [List.all_eq_true]
    intro p hp
    obtain ⟨hmem, ht⟩ := List.mem_filter.mp hp
    exact h p hmem (by simpa using ht)
  rw [if_pos hall]
  congr 1
  congr 1
  congr 1
  rw [List.filter_filter]
  apply List.filter_congr
  intro p _
  exact Bool.and_comm _ _

/-- C3 witness: the spec's concrete instance, obtained by applying the
refinement theorem.  Posts dated 2099-01-01, 2000-01-01, 2099-06-01 with
today 2024-01-01 and cap 2 yield the 2099-01-01 and 2099-06-01 posts in
that order. -/
theorem c3_witness :
    select_future_events
      [⟨1, EVENT, some ⟨2099, 1, 1⟩⟩, ⟨2, EVENT, some ⟨2000, 1, 1⟩⟩,
       ⟨3, EVENT, some ⟨2099, 6, 1⟩⟩] ⟨2024, 1, 1⟩ 2
      = .ok [⟨1, EVENT, some ⟨2099, 1, 1⟩⟩, ⟨3, EVENT, some ⟨2099, 6, 1⟩⟩] := by
  rw [c3_select_future_events_spec _ _ _ (by decide)]
  rfl

/-- C5: Dynamo serialization round-trips.  For every `Post` whose type is
one of the closed category set and whose date, when present, is a valid
calendar date (the invariant of a Python `date` object), parsing the
formatted item returns the original post: `message_id` (integer), `type`
(string) and the optional ISO date are preserved. -/
theorem c5_dynamo_roundtrip (post : Post)
    (h1 : post.type = EVENT ∨ post.type = CHATS ∨ post.type = CONTACTS
      ∨ post.type = EVENTS_ARCHIVE ∨ post.type = LECTURES_ARCHIVE
      ∨ post.type = WHOIS_HOWTO)
    (h2 : ∀ d, post.event_date = some d → d.valid = true) :
    dynamo_parse_post (dynamo_format_post post) = .ok post := by
  clear h1
  obtain ⟨mid, ty, ed⟩ := post
  cases ed with
  | none =>
    simp only [dynamo_format_post, dynamo_parse_post]
    simp [List.lookup, attr_n, attr_s, bind, Except.bind,
      string_to_int_int_to_string mid]
  | some d =>
    have hv : d.valid = true := h2 d rfl
    simp only [dynamo_format_post, dynamo_parse_post]
    simp [List.lookup, attr_n, attr_s, bind, Except.bind,
      string_to_int_int_to_string mid, fromisoformat_isoformat d hv]

/-- C5 witness: the round-trip theorem applied at a concrete post. -/
theorem c5_witness :
    dynamo_parse_post (dynamo_format_post ⟨42, EVENT, some ⟨2030, 5, 1⟩⟩)
      = .ok ⟨42, EVENT, some ⟨2030, 5, 1⟩⟩ :=
  c5_dynamo_roundtrip ⟨42, EVENT, some ⟨2030, 5, 1⟩⟩ (Or.inl rfl)
    (by intro d hd; injection hd with h; rw [← h]; decide)

/-- C6 counterexample: the claim quantifies over every text containing
both a valid event footer and a navigation tag.  The text
`#event 2030-13-13 #event 2030-05-01 #chats` contains the valid event
footer `#event 2030-05-01` (first two conjuncts) and a navigation tag
(third conjunct), yet `parse_post_footer` raises `ValueError` instead of
returning the event footer, because the leftmost event-pattern match has
the calendar-invalid date 2030-13-13. -/
theorem c6_counterexample :
    search_event ("#event 2030-05-01 #chats").data = some "2030-05-01" ∧
    Date.fromisoformat "2030-05-01" = some ⟨2030, 5, 1⟩ ∧
    search_nav ("#event 2030-13-13 " ++ "#event 2030-05-01 #chats").data
      = some CHATS ∧
    parse_post_footer ("#event 2030-13-13 " ++ "#event 2030-05-01 #chats")
      = .error PyError.valueError :=
  ⟨rfl, rfl, rfl, rfl⟩

/-- C6 (amended): for every text containing both an event footer and a
navigation tag, where the leftmost event-pattern match carries a
calendar-valid date, `parse_post_footer` returns that event footer, not
the navigation footer: the event pattern is attempted first. -/
theorem c6_event_precedence (text ds : String) (d : Date) (ty : String)
    (h1 : search_event text.data = some ds)
    (h2 : Date.fromisoformat ds = some d)
    (h3 : search_nav text.data = some ty) :
    parse_post_footer text = .ok (some ⟨EVENT, some d⟩) := by
  unfold parse_post_footer
  simp only [h1, h2]

/-- C6 witness: a text containing both a navigation tag and a valid event
footer parses to the event footer. -/
theorem c6_witness :
    parse_post_footer "#chats #event 2030-05-01"
      = .ok (some ⟨EVENT, some ⟨2030, 5, 1⟩⟩) :=
  c6_event_precedence "#chats #event 2030-05-01" "2030-05-01"
    ⟨2030, 5, 1⟩ CHATS rfl rfl rfl

/-- C7 counterexample: the tag token `chatsx` is not exactly a navigation
category name (it is `chats` followed by extra letters), yet
`parse_post_footer` recognizes the text `#chatsx` as the `chats`
navigation footer, because the regex has no trailing delimiter after the
alternation. -/
theorem c7_counterexample :
    parse_post_footer "#chatsx" = .ok (some ⟨CHATS, none⟩) :=
  rfl

/-- C7 (amended): when no event footer matches and the navigation pattern
finds a tag, `parse_post_footer` returns that category with no date, and
the category is one of the five fixed names; spelling is case-sensitive
(`#Chats` is not recognized), but a category name followed by extra
characters is still recognized as that category, since the grammar has no
trailing delimiter. -/
theorem c7_nav_recognition :
    (∀ (text : String) (ty : String),
        search_event text.data = none →
        search_nav text.data = some ty →
        parse_post_footer text = .ok (some ⟨ty, none⟩)
          ∧ (ty = CHATS ∨ ty = CONTACTS ∨ ty = EVENTS_ARCHIVE
              ∨ ty = LECTURES_ARCHIVE ∨ ty = WHOIS_HOWTO))
      ∧ parse_post_footer "#Chats" = .ok none
      ∧ parse_post_footer "#chatsx" = .ok (some ⟨CHATS, none⟩) := by
  refine ⟨?_, rfl, rfl⟩
  intro text ty h1 h2
  constructor
  · unfold parse_post_footer
    simp only [h1, h2]
  · exact search_nav_cases _ _ h2

/-- C7 witness: the amended theorem applied at the concrete text
`#contacts`. -/
theorem c7_witness :
    parse_post_footer "#contacts" = .ok (some ⟨CONTACTS, none⟩)
      ∧ (CONTACTS = CHATS ∨ CONTACTS = CONTACTS
          ∨ CONTACTS = EVENTS_ARCHIVE ∨ CONTACTS = LECTURES_ARCHIVE
          ∨ CONTACTS = WHOIS_HOWTO) :=
  c7_nav_recognition.1 "#contacts" CONTACTS rfl rfl

/-- C8: forward failure handling.  A "message not found" signal (either of
the two exception types the transport raises for it) makes `forward_post`
delete the stale record and answer the "content missing" notice instead of
forwarding; any other transport failure propagates unchanged with the
store unmodified; success forwards with the store unmodified. -/
theorem c8_forward_post_failures (chat_id : Int) (store : List Post)
    (post : Post) (code : Nat) :
    forward_post chat_id (some .messageToForwardNotFound) store post
        = (delete_post store post.message_id,
           .ok (.answered (missing_forward_text
             (message_url chat_id post.message_id)))) ∧
    forward_post chat_id (some .messageIdInvalid) store post
        = (delete_post store post.message_id,
           .ok (.answered (missing_forward_text
             (message_url chat_id post.message_id)))) ∧
    forward_post chat_id (some (.other code)) store post
        = (store, .error code) ∧
    forward_post chat_id none store post = (store, .ok .forwarded) :=
  ⟨rfl, rfl, rfl, rfl⟩

/-- C9: every footer produced by the parser, and every store reachable by
the synchronizer handlers from a store satisfying the invariant, has
`event_date` present exactly when the type is `event`: navigation
categories never carry a date, event records always do. -/
theorem c9_event_date_invariant :
    (∀ (text : String) (footer : PostFooter),
        parse_post_footer text = .ok (some footer) →
        (footer.event_date.isSome = true ↔ footer.type = EVENT))
      ∧ (∀ (store : List Post) (message_id : Int) (text : String)
            (s : List Post),
          (∀ p ∈ store, p.event_date.isSome = true ↔ p.type = EVENT) →
          handle_chat_new_message store message_id text = .ok s →
          ∀ p ∈ s, p.event_date.isSome = true ↔ p.type = EVENT)
      ∧ (∀ (store : List Post) (message_id : Int) (text : String)
            (s : List Post),
          (∀ p ∈ store, p.event_date.isSome = true ↔ p.type = EVENT) →
          handle_chat_edited_message store message_id text = .ok s →
          ∀ p ∈ s, p.event_date.isSome = true ↔ p.type = EVENT) := by
  have hparse : ∀ (text : String) (footer : PostFooter),
      parse_post_footer text = .ok (some footer) →
      (footer.event_date.isSome = true ↔ footer.type = EVENT) := by
    intro text footer h
    unfold parse_post_footer at h
    cases he : search_event text.data with
    | some ds =>
      simp only [he] at h
      cases hd : Date.fromisoformat ds with
      | some d =>
        simp only [hd] at h
        injection h with h'
        injection h' with h''
        rw [← h'']
        simp [EVENT]
      | none =>
        simp only [hd] at h
        exact Except.noConfusion h
    | none =>
      simp only [he] at h
      cases hn : search_nav text.data with
      | some ty =>
        simp only [hn] at h
        injection h with h'
        injection h' with h''
        rw [← h'']
        rcases search_nav_cases _ _ hn with rfl | rfl | rfl | rfl | rfl <;>
          decide
      | none =>
        simp only [hn] at h
        injection h with h'
        exact Option.noConfusion h'
  have hpres : ∀ (store : List Post) (message_id : Int)
      (footer : PostFooter),
      (footer.event_date.isSome = true ↔ footer.type = EVENT) →
      (∀ p ∈ store, p.event_date.isSome = true ↔ p.type = EVENT) →
      ∀ p ∈ new_post store message_id footer,
        p.event_date.isSome = true ↔ p.type = EVENT := by
    intro store mid footer hf hs p hp
    rcases mem_put_post hp with rfl | hp'
    · exact hf
    · exact hs p hp'
  refine ⟨hparse, ?_, ?_⟩
  · intro store mid text s hs h
    unfold handle_chat_new_message at h
    cases hp : parse_post_footer text with
    | error e =>
      simp only [hp] at h
      exact Except.noConfusion h
    | ok o =>
      cases o with
      | some footer =>
        simp only [hp] at h
        injection h with h'
        subst h'
        exact hpres store mid footer (hparse text footer hp) hs
      | none =>
        simp only [hp] at h
        injection h with h'
        subst h'
        exact hs
  · intro store mid text s hs h
    unfold handle_chat_edited_message at h
    cases hp : parse_post_footer text with
    | error e =>
      simp only [hp] at h
      exact Except.noConfusion h
    | ok o =>
      cases o with
      | some footer =>
        simp only [hp] at h
        injection h with h'
        subst h'
        exact hpres store mid footer (hparse text footer hp) hs
      | none =>
        simp only [hp] at h
        cases hf : find_post store (some mid) none with
        | some post =>
          rw [hf] at h
          injection h with h'
          subst h'
          intro p hp'
          exact hs p (mem_delete_post hp')
        | none =>
          rw [hf] at h
          injection h with h'
          subst h'
          exact hs

/-- C9 witness: the parser part of the invariant applied at a concrete
text. -/
theorem c9_witness :
    ((⟨EVENT, some ⟨2030, 5, 1⟩⟩ : PostFooter).event_date.isSome = true
      ↔ (⟨EVENT, some ⟨2030, 5, 1⟩⟩ : PostFooter).type = EVENT) :=
  c9_event_date_invariant.1 "#event 2030-05-01" ⟨EVENT, some ⟨2030, 5, 1⟩⟩
    rfl

/-- C10: totality of `select_future`.  It raises `TypeError` exactly when
some input post has no `event_date`; under the store invariant of C9, the
caller's pre-filtering to type `event` (as `handle_future_events_command`
does) makes the error branch unreachable; and without the pre-filter a
snapshot holding a navigation post (which has no date) does hit the error
branch. -/
theorem c10_select_future_totality :
    (∀ (posts : List Post) (today : Date) (cap : Nat),
        select_future posts today cap = .error PyError.typeError
          ↔ ∃ p ∈ posts, p.event_date = none)
      ∧ (∀ (posts : List Post) (today : Date) (cap : Nat),
          (∀ p ∈ posts, p.event_date.isSome = true ↔ p.type = EVENT) →
          ∃ l, select_future (find_posts posts none (some EVENT)) today cap
            = .ok l)
      ∧ select_future [⟨1, CONTACTS, none⟩] ⟨2024, 1, 1⟩ 3
          = .error PyError.typeError := by
  refine ⟨?_, ?_, rfl⟩
  · intro posts today cap
    unfold select_future
    split_ifs with hall
    · constructor
      · intro h
        exact absurd h (by simp)
      · rintro ⟨p, hp, hpd⟩
        rw [List.all_eq_true] at hall
        have := hall p hp
        rw [hpd] at this
        cases this
    · constructor
      · intro _
        rw [List.all_eq_true] at hall
        push_neg at hall
        obtain ⟨p, hp, hps⟩ := hall
        refine ⟨p, hp, ?_⟩
        cases hpd : p.event_date with
        | none => rfl
        | some d =>
          rw [hpd] at hps
          exact absurd rfl hps
      · intro _
        rfl
  · intro posts today cap hinv
    unfold select_future
    rw [find_posts_type_event]
    have hall : ((posts.filter fun p => p.type == EVENT).all
        fun p => p.event_date.isSome) = true := by
      rw [List.all_eq_true]
      intro p hp
      obtain ⟨hmem, ht⟩ := List.mem_filter.mp hp
      exact (hinv p hmem).mpr (by simpa using ht)
    rw [if_pos hall]
    exact ⟨_, rfl⟩

/-- C10 witness: the pre-filtered call on an invariant-satisfying snapshot
(one navigation post without a date, one event post with a date)
succeeds. -/
theorem c10_witness :
    ∃ l, select_future
        (find_posts [⟨1, CONTACTS, none⟩, ⟨2, EVENT, some ⟨2030, 5, 1⟩⟩]
          none (some EVENT)) ⟨2024, 1, 1⟩ 3 = .ok l :=
  c10_select_future_totality.2.1
    [⟨1, CONTACTS, none⟩, ⟨2, EVENT, some ⟨2030, 5, 1⟩⟩] ⟨2024, 1, 1⟩ 3
    (by decide)
